import Mathlib

/-!
Shallow embedding of the gdelt-geojson-ai pipeline (Python) in Lean 4.

Source files embedded:
  * src/gdelt_fetcher.py   — GDELTFetcher: fetch_daily_report / _try_fetch_report,
                             _fetch_article_details, _parse_csv, _extract_title_from_url
  * src/event_summarizer.py — EventSummarizer: summarize_events / _generate_summary
  * src/geojson_generator.py — GeoJSONGenerator: generate / save / _create_feature
  * src/x_fetcher.py       — XFetcher: _process_posts (regex location extraction
                             and the geocode loop)

External collaborators (HTTP, the Ollama LLM service, the Nominatim geocoder,
BeautifulSoup, pandas CSV decoding, the filesystem) are modelled as explicit
environment parameters: a function from request to outcome.  Python dictionaries
with optional keys become structures with `Option` fields; exceptions become
`Except`/`Option` results; floats are carried as Lean `Float` values (the code
never computes with them, it only moves them between records).
-/

namespace GdeltGeo

/-! ## Python string primitives used by the code -/

/-- Python whitespace for `str.strip()` / `str.split()` (ASCII part). -/
def isPySpace (c : Char) : Bool :=
  c = ' ' || c = '\t' || c = '\n' || c = '\r' || c = '\x0b' || c = '\x0c'

/-- Python `str.strip()` on a character list. -/
def pyStripList (cs : List Char) : List Char :=
  ((cs.dropWhile isPySpace).reverse.dropWhile isPySpace).reverse

/-- Python `str.strip()`. -/
def pyStrip (s : String) : String :=
  String.mk (pyStripList s.toList)

/-- Python `str.capitalize()`: first character uppercased, the rest lowercased. -/
def pyCapitalizeList : List Char → List Char
  | [] => []
  | c :: rest => c.toUpper :: rest.map Char.toLower

/-- Python `str.split(sep)` for a one-character separator: split at every
occurrence, keeping empty pieces (`"".split('/') == ['']`). -/
def splitOnChar (sep : Char) : List Char → List (List Char)
  | [] => [[]]
  | c :: rest =>
    let r := splitOnChar sep rest
    if c = sep then [] :: r
    else
      match r with
      | [] => [[c]]
      | g :: gs => (c :: g) :: gs

/-- Python no-argument `str.split()`: split on whitespace runs, dropping
empty pieces. -/
def pySplitWsList (cs : List Char) : List (List Char) :=
  (splitOnCharPred cs).filter (fun w => w ≠ [])
where
  /-- split at every whitespace character. -/
  splitOnCharPred : List Char → List (List Char)
    | [] => [[]]
    | c :: rest =>
      let r := splitOnCharPred rest
      if isPySpace c then [] :: r
      else
        match r with
        | [] => [[c]]
        | g :: gs => (c :: g) :: gs

/-- Python truthiness-based `a or b` on optional strings
(`None` and `""` are falsy). -/
def pyOrStr (a : Option String) (b : String) : String :=
  match a with
  | none => b
  | some s => if s = "" then b else s

/-! ## GDELTFetcher.fetch_daily_report / _try_fetch_report

`fetch_daily_report(start_date)` parses the date and, for
`days_back in range(max_days_back)`, attempts `_try_fetch_report` on
`start_date - days_back` days.  `_try_fetch_report` returns parsed data on a
2xx download, `None` on HTTP 404 (the caller then tries the previous day), and
re-raises every other error (SSL, transport, other HTTP statuses) which aborts
`fetch_daily_report` itself.  After `max_days_back` misses it raises the
"No GDELT report found within the last N days" exception.

Dates are modelled as integer day numbers (`datetime` subtraction of whole
days); the network is an environment `env : Int → FetchOutcome α` giving, for
each day, what `_try_fetch_report` would observe for that day's URL. -/

/-- What a single `_try_fetch_report(date)` observes for one date. -/
inductive FetchOutcome (α : Type) where
  | found (data : α)        -- 2xx download, parsed successfully
  | notFound                -- HTTP 404: `return None`
  | fatal (code : Nat)      -- SSL / transport / other HTTP error: re-raised
  deriving DecidableEq, Repr

/-- How `fetch_daily_report` can fail. -/
inductive FetchError where
  | notFoundExhausted       -- "No GDELT report found within the last N days"
  | fatalError (code : Nat) -- an error re-raised from `_try_fetch_report`
  deriving DecidableEq, Repr

/-- The body of the `for days_back in range(max_days_back)` loop of
`fetch_daily_report`, folded over the list of dates the loop iterates.
Also returns the list of day numbers actually requested, in request order:
a `found` or `fatal` outcome stops the loop (return / re-raise), `notFound`
falls through to the next date, and an exhausted list raises the
"No GDELT report found within the last N days" exception. -/
def scan_dates {α : Type} (env : Int → FetchOutcome α) :
    List Int → Except FetchError α × List Int
  | [] => (Except.error FetchError.notFoundExhausted, [])
  | d :: ds =>
    match env d with
    | FetchOutcome.found data => (Except.ok data, [d])
    | FetchOutcome.notFound =>
        let tail := scan_dates env ds
        (tail.1, d :: tail.2)
    | FetchOutcome.fatal c => (Except.error (FetchError.fatalError c), [d])

/-- The dates `fetch_daily_report`'s loop iterates:
`start_date - days_back` for `days_back in range(max_days_back)`. -/
def scanned_dates (start : Int) (max_days_back : Nat) : List Int :=
  (List.range max_days_back).map (fun (j : Nat) => start - (j : Int))

/-- `GDELTFetcher.fetch_daily_report`: result plus the dates requested. -/
def fetch_daily_report {α : Type} (env : Int → FetchOutcome α) (start : Int)
    (max_days_back : Nat) : Except FetchError α × List Int :=
  scan_dates env (scanned_dates start max_days_back)

/-! ## GDELTFetcher._extract_title_from_url

```
url_parts = [p for p in url.split('/') if p]
title = url_parts[-1].replace('-', ' ').replace('_', ' ')
title = title.split('.')[0].strip()
return ' '.join(word.capitalize() for word in title.split())
```
wrapped in `try/except` returning "No title available".  The only statement in
the `try` block that can raise is `url_parts[-1]` (IndexError when the list of
non-empty path segments is empty); every other operation is total, so the
`except` branch fires exactly when the URL has no non-empty `/`-segment. -/

def extract_title_from_url (url : String) : String :=
  let url_parts := (splitOnChar '/' url.toList).filter (fun p => p ≠ [])
  match url_parts.getLast? with
  | none => "No title available"
  | some lastPart =>
    let title := lastPart.map (fun c => if c = '-' then ' ' else if c = '_' then ' ' else c)
    let title := pyStripList ((splitOnChar '.' title).headD [])
    String.mk (List.intercalate [' '] ((pySplitWsList title).map pyCapitalizeList))

/-! ## GDELTFetcher._fetch_article_details

One big `try` around the HTTP GET (`raise_for_status`), the BeautifulSoup
parse, and the meta-tag extraction; `except Exception: return {}`.  The HTTP
transfer and the soup extraction are third-party collaborators, modelled as an
environment `net : String → Except Nat ArticleDetails` (error code for any
transport / non-2xx / parse exception; on success, the five extracted fields,
each possibly `None`).  Downstream only reads the result with `.get`, so the
Python `{}` is the all-`none` record. -/

structure ArticleDetails where
  title : Option String
  description : Option String
  published_date : Option String
  location : Option String
  content : Option String
  deriving DecidableEq, Repr

/-- The `{}` returned on failure: every `.get` yields `None`. -/
def ArticleDetails.empty : ArticleDetails :=
  ⟨none, none, none, none, none⟩

/-- `GDELTFetcher._fetch_article_details`: never raises; any exception inside
the `try` yields the empty mapping. -/
def fetch_article_details (net : String → Except Nat ArticleDetails)
    (url : String) : ArticleDetails :=
  match net url with
  | Except.ok details => details
  | Except.error _ => ArticleDetails.empty

/-- The description fallback chain in `_parse_csv`:
`details.get("description") or details.get("title") or
self._extract_title_from_url(url)` (Python `or`: `None` and `""` are falsy). -/
def event_description (details : ArticleDetails) (url : String) : String :=
  pyOrStr details.description (pyOrStr details.title (extract_title_from_url url))

/-! ## GDELTFetcher._parse_csv — row selection and event construction

`pd.read_csv(..., nrows=10)` parses only the FIRST 10 rows of the decompressed
table (in file order); `df.sort_values('DATEADDED', ascending=False)` then
sorts those rows by the DATEADDED column, descending.  The zip/CSV decoding is
the dataframe library's job; we model its output as a list of typed rows with
the columns the code reads.  `sort_values` uses an unstable quicksort; we model
it as a descending insertion sort (identical output whenever the kept
DATEADDED keys are distinct). -/

structure Row where
  GLOBALEVENTID : Nat
  SQLDATE : String
  EventCode : String
  GoldsteinScale : Float
  NumMentions : Nat
  NumSources : Nat
  NumArticles : Nat
  AvgTone : Float
  Actor1Name : String
  Actor2Name : String
  ActionGeo_FullName : String
  ActionGeo_Lat : Float
  ActionGeo_Long : Float
  DATEADDED : Nat
  SOURCEURL : String

/-- Metadata mapping attached to each event in `_parse_csv`. -/
structure EventMetadata where
  event_code : String
  goldstein_scale : Float
  num_mentions : Nat
  num_sources : Nat
  num_articles : Nat
  actor1 : String
  actor2 : String
  article_title : Option String
  article_date : Option String
  article_content_preview : Option String

/-- One element of the `events` list built by `_parse_csv`. -/
structure GdeltEvent where
  id : Nat
  date : String
  url : String
  location : String
  latitude : Float
  longitude : Float
  tone : Float
  description : String
  metadata : EventMetadata

/-- The row-selection step of `_parse_csv`: keep the first 10 file rows
(`nrows=10`), then sort them by DATEADDED descending. -/
def parse_csv_rows (rows : List Row) : List Row :=
  List.insertionSort (fun a b => b.DATEADDED ≤ a.DATEADDED) (rows.take 10)

/-- The per-row event construction of `_parse_csv`, including the article
enrichment (`_fetch_article_details` cannot raise, so the inner `except`
fallback is unreachable; the fallback chain lives in `event_description`). -/
def mkGdeltEvent (net : String → Except Nat ArticleDetails) (row : Row) :
    GdeltEvent :=
  let details := fetch_article_details net row.SOURCEURL
  { id := row.GLOBALEVENTID
    date := row.SQLDATE
    url := row.SOURCEURL
    location := row.ActionGeo_FullName
    latitude := row.ActionGeo_Lat
    longitude := row.ActionGeo_Long
    tone := row.AvgTone
    description := event_description details row.SOURCEURL
    metadata :=
      { event_code := row.EventCode
        goldstein_scale := row.GoldsteinScale
        num_mentions := row.NumMentions
        num_sources := row.NumSources
        num_articles := row.NumArticles
        actor1 := row.Actor1Name
        actor2 := row.Actor2Name
        article_title := details.title
        article_date := details.published_date
        article_content_preview := details.content } }

/-- `GDELTFetcher._parse_csv`: the returned `{"events": ...}` list. -/
def parse_csv (net : String → Except Nat ArticleDetails) (rows : List Row) :
    List GdeltEvent :=
  (parse_csv_rows rows).map (mkGdeltEvent net)

/-! ## EventSummarizer.summarize_events / _generate_summary

`_generate_summary(event)` builds a fixed-template prompt from the event's
`description` / `location` / `date` (each read with `.get(key, default)`),
calls `ollama.generate`, and returns a dict with the stripped response plus
location / timestamp / tone defaults; any exception is re-raised.  The Ollama
service is the environment `llm : String → Except Nat String` (prompt to
response text, or an exception).  In `summarize_events` the per-event
`try/except Exception` logs and `continue`s, so one failure never aborts the
batch; `if summary:` tests the returned dict, which is non-empty hence always
truthy, so every successful record is appended. -/

structure RawEvent where
  id : Nat
  location : Option String
  description : Option String
  date : Option String
  latitude : Option Float
  longitude : Option Float
  tone : Option Float

structure LocationPair where
  lat : Float
  lon : Float

structure SummaryRecord where
  summary : String
  location : LocationPair
  timestamp : String
  tone : Float

/-- The f-string prompt of `_generate_summary`. -/
def build_prompt (e : RawEvent) : String :=
  "\n            Summarize the following event in a concise manner:\n            Event: "
    ++ e.description.getD ""
    ++ "\n            Location: " ++ e.location.getD ""
    ++ "\n            Date: " ++ e.date.getD ""
    ++ "\n            \n            Provide a brief, factual summary focusing on the key details.\n            "

/-- `EventSummarizer._generate_summary`. -/
def generate_summary (llm : String → Except Nat String) (e : RawEvent) :
    Except Nat SummaryRecord :=
  match llm (build_prompt e) with
  | Except.error c => Except.error c
  | Except.ok resp =>
      Except.ok
        { summary := pyStrip resp
          location := { lat := e.latitude.getD 0.0, lon := e.longitude.getD 0.0 }
          timestamp := e.date.getD ""
          tone := e.tone.getD 0.0 }

/-- The `for idx, event in enumerate(...)` loop of `summarize_events`:
the records appended, in order, and the number of per-event failures logged. -/
def summarize_run (llm : String → Except Nat String) :
    List RawEvent → List SummaryRecord × Nat
  | [] => ([], 0)
  | e :: rest =>
    let tail := summarize_run llm rest
    match generate_summary llm e with
    | Except.ok r => (r :: tail.1, tail.2)
    | Except.error _ => (tail.1, tail.2 + 1)

/-- `EventSummarizer.summarize_events`: the returned record list. -/
def summarize_events (llm : String → Except Nat String)
    (events : List RawEvent) : List SummaryRecord :=
  (summarize_run llm events).1

/-- Number of "Failed to summarize event" log lines emitted by one
`summarize_events` call. -/
def summarize_failures (llm : String → Except Nat String)
    (events : List RawEvent) : Nat :=
  (summarize_run llm events).2

/-! ## GeoJSONGenerator.generate / _create_feature / save

`_create_feature(event)` reads `event["location"]["lon"]`,
`event["location"]["lat"]`, `event["summary"]`, `event["timestamp"]`,
`event["tone"]`; a missing key raises `KeyError`, which `generate` catches and
skips.  Inputs are therefore modelled with every key optional.  `Feature` and
`FeatureCollection` objects from the `geojson` library are dicts
`{"type": "Feature", "geometry": {"type": "Point", "coordinates": [lon, lat]},
"properties": {...}}` and `{"type": "FeatureCollection", "features": [...]}`;
`if feature:` tests a non-empty dict, always truthy. -/

structure GeoLocation where
  lon : Option Float
  lat : Option Float

structure GenEvent where
  location : Option GeoLocation
  summary : Option String
  timestamp : Option String
  tone : Option Float

structure Feature where
  coordinates : List Float
  summary : String
  timestamp : String
  tone : Float

/-- `GeoJSONGenerator._create_feature`; `none` is the KeyError path. -/
def create_feature (e : GenEvent) : Option Feature :=
  match e.location with
  | none => none
  | some loc =>
    match loc.lon, loc.lat, e.summary, e.timestamp, e.tone with
    | some lon, some lat, some s, some ts, some tn =>
        some { coordinates := [lon, lat], summary := s, timestamp := ts, tone := tn }
    | _, _, _, _, _ => none

/-- `GeoJSONGenerator.generate`: per-record failures are caught and skipped. -/
def generate (events : List GenEvent) : List Feature :=
  events.filterMap create_feature

/-- The dict a summarizer `SummaryRecord` is, when handed to the generator
(all keys present). -/
def SummaryRecord.toGenEvent (r : SummaryRecord) : GenEvent :=
  { location := some { lon := some r.location.lon, lat := some r.location.lat }
    summary := some r.summary
    timestamp := some r.timestamp
    tone := some r.tone }

/-! ### The saved JSON document

`save` writes the collection with `json.dump(..., indent=2)` and the claim
re-parses the file with a JSON reader.  Textual encode/decode of JSON values
is the standard library's (out of scope); the document structure is this
program's, so we model the file contents as a JSON value tree. -/

inductive Json where
  | str : String → Json
  | num : Float → Json
  | arr : List Json → Json
  | obj : List (String × Json) → Json

/-- Object field lookup on a parsed JSON value. -/
def jsonField : Json → String → Option Json
  | Json.obj fields, k => fields.lookup k
  | _, _ => none

def jsonStr : Json → Option String
  | Json.str s => some s
  | _ => none

def jsonNum : Json → Option Float
  | Json.num x => some x
  | _ => none

/-- Read a JSON array of numbers. -/
def jsonNums : List Json → Option (List Float)
  | [] => some []
  | j :: js =>
    match jsonNum j, jsonNums js with
    | some x, some xs => some (x :: xs)
    | _, _ => none

/-- What `json.dump` writes for one `Feature`. -/
def feature_to_json (f : Feature) : Json :=
  Json.obj
    [("type", Json.str "Feature"),
     ("geometry", Json.obj
        [("type", Json.str "Point"),
         ("coordinates", Json.arr (f.coordinates.map Json.num))]),
     ("properties", Json.obj
        [("summary", Json.str f.summary),
         ("timestamp", Json.str f.timestamp),
         ("tone", Json.num f.tone)])]

/-- What `save` writes for the whole `FeatureCollection`. -/
def collection_to_json (fs : List Feature) : Json :=
  Json.obj
    [("type", Json.str "FeatureCollection"),
     ("features", Json.arr (fs.map feature_to_json))]

/-- Read one feature back from the parsed file. -/
def parse_feature (j : Json) : Option Feature := do
  let t ← (jsonField j "type").bind jsonStr
  if t ≠ "Feature" then none else
  let geo ← jsonField j "geometry"
  let gt ← (jsonField geo "type").bind jsonStr
  if gt ≠ "Point" then none else
  let coords ← match jsonField geo "coordinates" with
    | some (Json.arr cs) => jsonNums cs
    | _ => none
  let props ← jsonField j "properties"
  let s ← (jsonField props "summary").bind jsonStr
  let ts ← (jsonField props "timestamp").bind jsonStr
  let tn ← (jsonField props "tone").bind jsonNum
  pure { coordinates := coords, summary := s, timestamp := ts, tone := tn }

/-- Read a JSON array of features. -/
def parse_features : List Json → Option (List Feature)
  | [] => some []
  | j :: js =>
    match parse_feature j, parse_features js with
    | some f, some fs => some (f :: fs)
    | _, _ => none

/-- Read the whole collection back from the parsed file. -/
def parse_feature_collection (j : Json) : Option (List Feature) := do
  let t ← (jsonField j "type").bind jsonStr
  if t ≠ "FeatureCollection" then none else
  match jsonField j "features" with
  | some (Json.arr xs) => parse_features xs
  | _ => none

/-! ## XFetcher._process_posts — location extraction and geocoding

Location candidates come from (1) entity annotations of type `'Place'`,
then (2) `re.findall(r'in ([\w\s,]+)(?=\s|$)|at ([\w\s,]+)(?=\s|$)|near ([\w\s,]+)(?=\s|$)', text)`
with each captured group stripped and kept when non-empty.  We embed exactly
this three-branch pattern: a literal (`"in "`, `"at "`, `"near "`), a greedy
`[\w\s,]+` capture, and a `(?=\s|$)` lookahead, with Python's leftmost scan,
in-order alternation, greedy backtracking, and non-overlapping continuation
after each match.  (`\w`/`\s` are taken over the ASCII inputs the claims use.)
Each candidate is geocoded in order; the first success appends one processed
post and breaks; `GeocoderTimedOut` and every other geocoder exception, and a
`None` geocode result, all continue with the next candidate. -/

/-- Python `\w` (ASCII part). -/
def isWordChar (c : Char) : Bool :=
  c.isAlpha || c.isDigit || c = '_'

/-- The character class `[\w\s,]`. -/
def isLocClassChar (c : Char) : Bool :=
  isWordChar c || isPySpace c || c = ','

/-- Consume a literal prefix, returning the rest. -/
def dropLit : List Char → List Char → Option (List Char)
  | [], cs => some cs
  | _ :: _, [] => none
  | l :: ls, c :: cs => if c = l then dropLit ls cs else none

/-- Does ending the capture after `k` characters of the maximal class run `r`
satisfy the lookahead `(?=\s|$)`?  `tEmpty` says the run reaches the end of
the subject. -/
def validCut (r : List Char) (tEmpty : Bool) (k : Nat) : Bool :=
  if k = r.length then tEmpty
  else
    match r.drop k with
    | c :: _ => isPySpace c
    | [] => false

/-- Greedy `[\w\s,]+` followed by `(?=\s|$)`: the longest non-empty prefix of
the maximal run that satisfies the lookahead (backtracking from the right). -/
def bestCapture (r : List Char) (tEmpty : Bool) : Option (List Char) :=
  ((List.range (r.length + 1)).reverse.find?
      (fun k => decide (1 ≤ k) && validCut r tEmpty k)).map r.take

/-- Try one alternation branch at the current position: literal, greedy class
run, lookahead.  Returns the captured group and the rest of the subject after
the match. -/
def tryAlt (lit : List Char) (cs : List Char) :
    Option (List Char × List Char) :=
  match dropLit lit cs with
  | none => none
  | some rest =>
    let r := rest.takeWhile isLocClassChar
    let t := rest.dropWhile isLocClassChar
    match bestCapture r t.isEmpty with
    | none => none
    | some cap => some (cap, rest.drop cap.length)

/-- Try the three branches, in pattern order, at the current position. -/
def matchHere (cs : List Char) : Option (List Char × List Char) :=
  (tryAlt ['i', 'n', ' '] cs).orElse fun _ =>
  (tryAlt ['a', 't', ' '] cs).orElse fun _ =>
  tryAlt ['n', 'e', 'a', 'r', ' '] cs

/-- `re.findall` scan: leftmost match, continue after each match.  Each step
consumes at least one character, so the subject length bounds the steps. -/
def findallAux : Nat → List Char → List (List Char)
  | 0, _ => []
  | _ + 1, [] => []
  | fuel + 1, c :: rest =>
    match matchHere (c :: rest) with
    | some (cap, remaining) => cap :: findallAux fuel remaining
    | none => findallAux fuel rest

/-- The captured location phrases of the `_process_posts` regex, in order. -/
def findall_locations (text : String) : List String :=
  (findallAux text.toList.length text.toList).map String.mk

structure Annotation where
  type : String
  normalized_text : String

/-- One post from the search response's `data` array.  `annotations` is
`post['entities']['annotations']` (empty when the key path is absent). -/
structure Post where
  id : String
  text : String
  created_at : Option String
  annotations : List Annotation

/-- The `locations` list built for one post: place annotations first, then
stripped non-empty regex captures. -/
def extract_locations (p : Post) : List String :=
  (p.annotations.filter (fun a => a.type = "Place")).map Annotation.normalized_text
    ++ ((findall_locations p.text).map pyStrip).filter (fun s => s ≠ "")

/-- One `self.geocoder.geocode(name, timeout=10)` call, as the environment
sees it. -/
inductive GeoOutcome where
  | success (lat lon : Float) (address : String) (country : Option String)
  | timedOut                 -- GeocoderTimedOut: caught, try next candidate
  | geoError (code : Nat)    -- any other exception: caught, try next candidate
  | notFound                 -- geocode returned None: `if location:` is False

/-- The dict appended to `processed_posts` for a successful geocode. -/
structure ProcessedPost where
  id : String
  text : String
  created_at : Option String
  location : String
  latitude : Float
  longitude : Float
  location_type : String
  country : Option String
  url : String
  address : String

/-- The per-post candidate loop: first successful geocode wins (`break`);
timeouts, other geocoder errors, and `None` results all `continue`. -/
def geocode_loop (geo : String → GeoOutcome) (p : Post) :
    List String → Option ProcessedPost
  | [] => none
  | name :: rest =>
    match geo name with
    | GeoOutcome.success lat lon addr ctry =>
        some
          { id := p.id
            text := p.text
            created_at := p.created_at
            location := name
            latitude := lat
            longitude := lon
            location_type := "geocoded"
            country := ctry
            url := "https://twitter.com/i/web/status/" ++ p.id
            address := addr }
    | _ => geocode_loop geo p rest

/-- What one post contributes to `processed_posts` (at most one entry). -/
def process_post (geo : String → GeoOutcome) (p : Post) :
    Option ProcessedPost :=
  geocode_loop geo p (extract_locations p)

/-- `XFetcher._process_posts` over the response's `data` array. -/
def process_posts (geo : String → GeoOutcome) (posts : List Post) :
    List ProcessedPost :=
  posts.filterMap (process_post geo)

/-- Successful-geocode discriminator for stating "no earlier candidate
resolves". -/
def GeoOutcome.isSuccess : GeoOutcome → Bool
  | GeoOutcome.success _ _ _ _ => true
  | _ => false

/-! ## Concrete test inputs used by the witness / counterexample theorems -/

/-- environment with a report only at day 8. -/
def envFoundAt8 : Int → FetchOutcome Nat :=
  fun d => if d = 8 then FetchOutcome.found 42 else FetchOutcome.notFound

/-- environment where every date 404s. -/
def envAllMiss : Int → FetchOutcome Nat :=
  fun _ => FetchOutcome.notFound

/-- environment with a 404 at day 10 and a fatal transport error at day 9. -/
def envFatalAt9 : Int → FetchOutcome Nat :=
  fun d => if d = 9 then FetchOutcome.fatal 500 else FetchOutcome.notFound

/-- a CSV row with the given GLOBALEVENTID and DATEADDED. -/
def gdeltSampleRow (id da : Nat) : Row :=
  { GLOBALEVENTID := id, SQLDATE := "20240101", EventCode := "010",
    GoldsteinScale := 0.0, NumMentions := 1, NumSources := 1, NumArticles := 1,
    AvgTone := 0.0, Actor1Name := "A", Actor2Name := "B",
    ActionGeo_FullName := "X", ActionGeo_Lat := 0.0, ActionGeo_Long := 0.0,
    DATEADDED := da, SOURCEURL := "u" }

/-- an 11-row table whose DATEADDED column is 1..11 in file order: the row
with the greatest DATEADDED (11) is the last one in the file. -/
def elevenRowTable : List Row :=
  (List.range 11).map (fun i => gdeltSampleRow i (i + 1))

/-- a raw event with index `n` and no latitude / longitude / tone. -/
def rawEvt (n : Nat) : RawEvent :=
  { id := n, location := some "L",
    description := some ("event number " ++ toString n),
    date := some (toString n), latitude := none, longitude := none,
    tone := none }

/-- ten raw events, indices 1..10. -/
def tenEvents : List RawEvent :=
  (List.range 10).map (fun n => rawEvt (n + 1))

/-- a model that raises exactly on event 4's prompt and echoes otherwise. -/
def llmFail4 : String → Except Nat String :=
  fun p => if p = build_prompt (rawEvt 4) then Except.error 7 else Except.ok p

/-- the social post of the C4 example. -/
def springfieldPost : Post :=
  { id := "1", text := "A fire broke out in Springfield yesterday",
    created_at := none, annotations := [] }

/-- a post whose only location phrase uses the "from X" pattern. -/
def fromParisPost : Post :=
  { id := "2", text := "Reports from Paris", created_at := none,
    annotations := [] }

/-- a geocoder that times out except on the name "b". -/
def geoW : String → GeoOutcome :=
  fun s => if s = "b" then GeoOutcome.success 1.5 2.5 "addr" none
           else GeoOutcome.timedOut

/-! # Theorems -/

/-! ## Scan lemmas for fetch_daily_report -/

lemma scan_dates_all_notFound {α : Type} (env : Int → FetchOutcome α) :
    ∀ ds : List Int, (∀ x ∈ ds, env x = FetchOutcome.notFound) →
      scan_dates env ds = (Except.error FetchError.notFoundExhausted, ds) := by
  intro ds
  induction ds with
  | nil => intro _; rfl
  | cons d ds ih =>
    intro h
    have hd : env d = FetchOutcome.notFound := h d (List.mem_cons_self d ds)
    have ht := ih (fun x hx => h x (List.mem_cons_of_mem d hx))
    simp [scan_dates, hd, ht]

lemma scan_dates_found {α : Type} (env : Int → FetchOutcome α) (d0 : Int)
    (data : α) (ds2 : List Int) :
    ∀ ds1 : List Int, (∀ x ∈ ds1, env x = FetchOutcome.notFound) →
      env d0 = FetchOutcome.found data →
      scan_dates env (ds1 ++ d0 :: ds2) = (Except.ok data, ds1 ++ [d0]) := by
  intro ds1
  induction ds1 with
  | nil =>
    intro _ h0
    simp [scan_dates, h0]
  | cons d ds ih =>
    intro h h0
    have hd : env d = FetchOutcome.notFound := h d (List.mem_cons_self d ds)
    have ht := ih (fun x hx => h x (List.mem_cons_of_mem d hx)) h0
    simp [scan_dates, hd, ht]

lemma scan_dates_fatal {α : Type} (env : Int → FetchOutcome α) (d0 : Int)
    (c : Nat) (ds2 : List Int) :
    ∀ ds1 : List Int, (∀ x ∈ ds1, env x = FetchOutcome.notFound) →
      env d0 = FetchOutcome.fatal c →
      scan_dates env (ds1 ++ d0 :: ds2) =
        (Except.error (FetchError.fatalError c), ds1 ++ [d0]) := by
  intro ds1
  induction ds1 with
  | nil =>
    intro _ h0
    simp [scan_dates, h0]
  | cons d ds ih =>
    intro h h0
    have hd : env d = FetchOutcome.notFound := h d (List.mem_cons_self d ds)
    have ht := ih (fun x hx => h x (List.mem_cons_of_mem d hx)) h0
    simp [scan_dates, hd, ht]

lemma scan_dates_attempts_mem {α : Type} (env : Int → FetchOutcome α)
    (d0 : Int) (ds2 : List Int) :
    ∀ ds1 : List Int, (∀ x ∈ ds1, env x = FetchOutcome.notFound) →
      d0 ∈ (scan_dates env (ds1 ++ d0 :: ds2)).2 := by
  intro ds1
  induction ds1 with
  | nil =>
    intro _
    cases h0 : env d0 <;> simp [scan_dates, h0]
  | cons d ds ih =>
    intro h
    have hd : env d = FetchOutcome.notFound := h d (List.mem_cons_self d ds)
    have ht := ih (fun x hx => h x (List.mem_cons_of_mem d hx))
    simp [scan_dates, hd]
    exact Or.inr ht

lemma scanned_dates_split (start : Int) (maxD k : Nat) (hk : k < maxD) :
    scanned_dates start maxD =
      scanned_dates start k
        ++ (start - (k : Int))
        :: ((List.range (maxD - k - 1)).map
              (fun (j : Nat) => start - ((k + 1 + j : Nat) : Int))) := by
  unfold scanned_dates
  conv_lhs => rw [show maxD = k + (1 + (maxD - k - 1)) by omega]
  rw [List.range_add, List.map_append]
  congr 1
  rw [List.range_add]
  simp [List.map_map]
  rw [show (List.range 1) = [0] from rfl]
  simp

/-- C1: for every start date and environment, if a report exists at offset `k`
within the look-back window and every more recent date 404s, then
`fetch_daily_report` returns that first report found scanning backward and
requests exactly the dates `start, start-1, ..., start-k` (never an earlier
one); and when every date in the window 404s, it raises the
not-found-exhausted error after requesting exactly the `max_days_back` window
dates and no more. -/
theorem claim_C1 {α : Type} (env : Int → FetchOutcome α) (start : Int)
    (maxD k : Nat) (data : α) :
    (k < maxD →
      (∀ j : Nat, j < k → env (start - (j : Int)) = FetchOutcome.notFound) →
      env (start - (k : Int)) = FetchOutcome.found data →
      fetch_daily_report env start maxD =
        (Except.ok data, scanned_dates start (k + 1))) ∧
    ((∀ j : Nat, j < maxD → env (start - (j : Int)) = FetchOutcome.notFound) →
      fetch_daily_report env start maxD =
        (Except.error FetchError.notFoundExhausted, scanned_dates start maxD)) := by
  constructor
  · intro hk hmiss hfound
    unfold fetch_daily_report
    rw [scanned_dates_split start maxD k hk]
    rw [scan_dates_found env _ data _ _ ?hm hfound]
    · congr 1
      unfold scanned_dates
      rw [List.range_succ]
      simp
    · intro x hx
      unfold scanned_dates at hx
      rw [List.mem_map] at hx
      obtain ⟨j, hj, rfl⟩ := hx
      exact hmiss j (List.mem_range.mp hj)
  · intro hmiss
    unfold fetch_daily_report
    apply scan_dates_all_notFound
    intro x hx
    unfold scanned_dates at hx
    rw [List.mem_map] at hx
    obtain ⟨j, hj, rfl⟩ := hx
    exact hmiss j (List.mem_range.mp hj)

/-- Witness for C1 at concrete inputs. -/
theorem claim_C1_witness :
    fetch_daily_report envFoundAt8 10 7 = (Except.ok 42, [10, 9, 8]) ∧
    fetch_daily_report envAllMiss 5 3 =
      (Except.error FetchError.notFoundExhausted, [5, 4, 3]) := by
  constructor
  · have h := (claim_C1 envFoundAt8 10 7 2 42).1 (by norm_num) (by decide) (by decide)
    have h2 : scanned_dates 10 3 = [10, 9, 8] := by decide
    rw [h, h2]
  · have h := (claim_C1 envAllMiss 5 3 0 0).2 (by decide)
    have h2 : scanned_dates 5 3 = [5, 4, 3] := by decide
    rw [h, h2]

/-- C7: during the backward scan, a 404 on every date up to offset `k` means
the next-earlier date is still attempted (404 ⇒ "try the previous day"); and
a fatal (non-404 transport/TLS/HTTP) failure at offset `k` makes the whole
fetch raise that error immediately, with the request list stopping at that
date — no further dates attempted. -/
theorem claim_C7 {α : Type} (env : Int → FetchOutcome α) (start : Int)
    (maxD k : Nat) (c : Nat) :
    ((∀ j : Nat, j ≤ k → env (start - (j : Int)) = FetchOutcome.notFound) →
      k + 1 < maxD →
      (start - ((k + 1 : Nat) : Int)) ∈ (fetch_daily_report env start maxD).2) ∧
    ((∀ j : Nat, j < k → env (start - (j : Int)) = FetchOutcome.notFound) →
      env (start - (k : Int)) = FetchOutcome.fatal c →
      k < maxD →
      fetch_daily_report env start maxD =
        (Except.error (FetchError.fatalError c), scanned_dates start (k + 1))) := by
  constructor
  · intro hmiss hk
    unfold fetch_daily_report
    rw [scanned_dates_split start maxD (k + 1) hk]
    apply scan_dates_attempts_mem
    intro x hx
    unfold scanned_dates at hx
    rw [List.mem_map] at hx
    obtain ⟨j, hj, rfl⟩ := hx
    exact hmiss j (by have := List.mem_range.mp hj; omega)
  · intro hmiss hfatal hk
    unfold fetch_daily_report
    rw [scanned_dates_split start maxD k hk]
    rw [scan_dates_fatal env _ c _ _ ?hm hfatal]
    · congr 1
      unfold scanned_dates
      rw [List.range_succ]
      simp
    · intro x hx
      unfold scanned_dates at hx
      rw [List.mem_map] at hx
      obtain ⟨j, hj, rfl⟩ := hx
      exact hmiss j (List.mem_range.mp hj)

/-- Witness for C7 at concrete inputs. -/
theorem claim_C7_witness :
    (3 : Int) ∈ (fetch_daily_report envAllMiss 5 3).2 ∧
    fetch_daily_report envFatalAt9 10 7 =
      (Except.error (FetchError.fatalError 500), [10, 9]) := by
  constructor
  · have h := (claim_C7 envAllMiss 5 3 1 0).1 (by decide) (by norm_num)
    simpa using h
  · have h := (claim_C7 envFatalAt9 10 7 1 500).2 (by decide) (by decide) (by norm_num)
    have h2 : scanned_dates 10 2 = [10, 9] := by decide
    rw [h, h2]

/-- C10: for every input URL string, `_extract_title_from_url` returns a
string (the embedding is total: the only possible exception in the `try`
block, the IndexError of `url_parts[-1]`, is mapped to the default branch),
and when the URL has no non-empty path segment — empty string, only slashes —
it returns "No title available". -/
theorem claim_C10 (url : String) :
    (∃ s : String, extract_title_from_url url = s) ∧
    ((splitOnChar '/' url.toList).filter (fun p => p ≠ []) = [] →
      extract_title_from_url url = "No title available") := by
  refine ⟨⟨extract_title_from_url url, rfl⟩, ?_⟩
  intro h
  unfold extract_title_from_url
  rw [h]
  rfl

/-- Witness for C10 at the empty URL. -/
theorem claim_C10_witness :
    extract_title_from_url "" = "No title available" :=
  (claim_C10 "").2 (by decide)

/-- C8: whenever the article-detail fetch fails for any reason (the
environment reports any exception: non-2xx status, transport error, parse
error), `_fetch_article_details` returns the empty detail mapping — it never
raises, being total — and the event description computed from it is the
URL-derived fallback title; in particular
`https://ex.com/breaking-news-event` yields "Breaking News Event". -/
theorem claim_C8 (net : String → Except Nat ArticleDetails) (url : String)
    (e : Nat) :
    (net url = Except.error e →
      fetch_article_details net url = ArticleDetails.empty ∧
      event_description (fetch_article_details net url) url =
        extract_title_from_url url) ∧
    extract_title_from_url "https://ex.com/breaking-news-event" =
      "Breaking News Event" := by
  constructor
  · intro h
    constructor
    · simp [fetch_article_details, h]
    · simp [fetch_article_details, h, event_description, ArticleDetails.empty,
        pyOrStr]
  · decide

/-- Witness for C8 with a failing network environment. -/
theorem claim_C8_witness :
    fetch_article_details (fun _ => Except.error 404)
        "https://ex.com/breaking-news-event" = ArticleDetails.empty ∧
    event_description
        (fetch_article_details (fun _ => Except.error 404)
          "https://ex.com/breaking-news-event")
        "https://ex.com/breaking-news-event" = "Breaking News Event" := by
  have h := claim_C8 (fun _ => Except.error 404)
    "https://ex.com/breaking-news-event" 404
  obtain ⟨h1, h2⟩ := h.1 rfl
  exact ⟨h1, h2.trans h.2⟩

/-- C3, code bug: on an 11-row table whose DATEADDED column is 1..11 in file
order, `_parse_csv` keeps the FIRST 10 file rows (`nrows=10`) and then sorts
those, so the kept DATEADDED values are 10..1: the row with the greatest
DATEADDED (11) is dropped, and the output differs from the 10
greatest-DATEADDED rows [11..2] that the claim (and the code's own
"limited to 10 most recent" log line and "ensure we get the most recent
events" comment) describes. -/
theorem claim_C3 :
    (11 : Nat) ∈ elevenRowTable.map Row.DATEADDED ∧
    (parse_csv_rows elevenRowTable).map Row.DATEADDED =
      [10, 9, 8, 7, 6, 5, 4, 3, 2, 1] ∧
    (11 : Nat) ∉ (parse_csv_rows elevenRowTable).map Row.DATEADDED ∧
    (parse_csv (fun _ => Except.error 0) elevenRowTable).map GdeltEvent.id =
      [9, 8, 7, 6, 5, 4, 3, 2, 1, 0] ∧
    (parse_csv_rows elevenRowTable).map Row.DATEADDED ≠
      [11, 10, 9, 8, 7, 6, 5, 4, 3, 2] := by
  refine ⟨by decide, by decide, by decide, by decide, by decide⟩

lemma summarize_run_length (llm : String → Except Nat String) :
    ∀ events : List RawEvent,
      (summarize_run llm events).1.length + (summarize_run llm events).2 =
        events.length := by
  intro events
  induction events with
  | nil => rfl
  | cons e es ih =>
    unfold summarize_run
    cases h : generate_summary llm e <;> simp [h] <;> omega

set_option maxRecDepth 8000 in
/-- C6: on ten events where exactly event 4's prompt makes the model raise,
`summarize_events` returns exactly 9 records, logs exactly one failure, and
the records keep the source order (shown by their timestamps 1,2,3,5,...,10);
and in general every event is either summarized or counted as a logged
failure — a per-event failure never aborts the batch. -/
theorem claim_C6 :
    (summarize_events llmFail4 tenEvents).length = 9 ∧
    summarize_failures llmFail4 tenEvents = 1 ∧
    (summarize_events llmFail4 tenEvents).map SummaryRecord.timestamp =
      ["1", "2", "3", "5", "6", "7", "8", "9", "10"] ∧
    (∀ (llm : String → Except Nat String) (events : List RawEvent),
      (summarize_events llm events).length + summarize_failures llm events =
        events.length) := by
  refine ⟨by decide, by decide, by decide, ?_⟩
  intro llm events
  exact summarize_run_length llm events

/-- C5 counterexample: when the model's response is the empty string, the
returned SummaryRecord has an empty summary — `if summary:` tests the result
dict (always truthy), not the summary text, so non-emptiness is not
enforced. -/
theorem claim_C5_counterexample :
    ¬ (∀ r ∈ summarize_events (fun _ => Except.ok "") [rawEvt 1],
        r.summary ≠ "") := by
  intro h
  have hx : summarize_events (fun _ => Except.ok "") [rawEvt 1] =
      [{ summary := "", location := { lat := 0.0, lon := 0.0 },
         timestamp := "1", tone := 0.0 }] := rfl
  have hm := h { summary := "", location := { lat := 0.0, lon := 0.0 },
                 timestamp := "1", tone := 0.0 }
  rw [hx] at hm
  exact hm (List.mem_singleton_self _) rfl

/-- C5 as amended: the summary fields of the records returned by
`summarize_events` are exactly the trimmed model responses of the
successfully summarized events, in order; a summary is non-empty exactly when
the corresponding response trims to a non-empty string (which the code does
not enforce). -/
theorem claim_C5 (llm : String → Except Nat String) (events : List RawEvent) :
    (summarize_events llm events).map SummaryRecord.summary =
      events.filterMap (fun e =>
        match llm (build_prompt e) with
        | Except.ok resp => some (pyStrip resp)
        | Except.error _ => none) := by
  induction events with
  | nil => rfl
  | cons e es ih =>
    unfold summarize_events summarize_run generate_summary
    cases hl : llm (build_prompt e) with
    | ok resp =>
      simp [hl, List.filterMap_cons]
      exact ih
    | error c =>
      simp [hl, List.filterMap_cons]
      exact ih

/-- C9: an event lacking latitude and longitude yields a SummaryRecord with
location (0.0, 0.0), and a lacking tone yields tone 0.0; that record then
materializes as geometry coordinates [0.0, 0.0] in the generated feature. -/
theorem claim_C9 (llm : String → Except Nat String) (e : RawEvent)
    (resp : String) (hlat : e.latitude = none) (hlon : e.longitude = none)
    (htone : e.tone = none) (hllm : llm (build_prompt e) = Except.ok resp) :
    generate_summary llm e = Except.ok
      { summary := pyStrip resp, location := { lat := 0.0, lon := 0.0 },
        timestamp := e.date.getD "", tone := 0.0 } ∧
    create_feature (SummaryRecord.toGenEvent
      { summary := pyStrip resp, location := { lat := 0.0, lon := 0.0 },
        timestamp := e.date.getD "", tone := 0.0 }) =
      some { coordinates := [0.0, 0.0], summary := pyStrip resp,
             timestamp := e.date.getD "", tone := 0.0 } := by
  constructor
  · unfold generate_summary
    rw [hllm, hlat, hlon, htone]
    rfl
  · rfl

/-- Witness for C9 on a concrete event without coordinates. -/
theorem claim_C9_witness :
    generate_summary (fun _ => Except.ok "x") (rawEvt 1) = Except.ok
      { summary := "x", location := { lat := 0.0, lon := 0.0 },
        timestamp := "1", tone := 0.0 } ∧
    create_feature (SummaryRecord.toGenEvent
      { summary := "x", location := { lat := 0.0, lon := 0.0 },
        timestamp := "1", tone := 0.0 }) =
      some { coordinates := [0.0, 0.0], summary := "x",
             timestamp := "1", tone := 0.0 } := by
  have h := claim_C9 (fun _ => Except.ok "x") (rawEvt 1) "x" rfl rfl rfl rfl
  have e1 : pyStrip "x" = "x" := rfl
  have e2 : (rawEvt 1).date.getD "" = "1" := rfl
  rw [e1, e2] at h
  exact h

lemma jsonNums_map (xs : List Float) :
    jsonNums (xs.map Json.num) = some xs := by
  induction xs with
  | nil => rfl
  | cons x xs ih => simp [jsonNums, ih, jsonNum]

lemma parse_feature_roundtrip (f : Feature) :
    parse_feature (feature_to_json f) = some f := by
  cases f with
  | mk coords s ts tn =>
    simp [parse_feature, feature_to_json, jsonField, jsonStr, jsonNum,
      jsonNums_map, List.lookup]

lemma parse_features_map (fs : List Feature) :
    parse_features (fs.map feature_to_json) = some fs := by
  induction fs with
  | nil => rfl
  | cons f fs ih => simp [parse_features, parse_feature_roundtrip, ih]

/-- C2: for every input list, generating, saving, and re-parsing the written
JSON document yields a FeatureCollection with exactly one feature per input
record whose conversion did not fail, in input order; and a record's feature
carries geometry coordinates equal to [location.lon, location.lat] — the very
same values, no rounding. -/
theorem claim_C2 (events : List GenEvent) :
    parse_feature_collection (collection_to_json (generate events)) =
      some (events.filterMap create_feature) ∧
    (∀ (lon lat : Float) (s ts : String) (tn : Float),
      create_feature
          { location := some { lon := some lon, lat := some lat },
            summary := some s, timestamp := some ts, tone := some tn } =
        some { coordinates := [lon, lat], summary := s,
               timestamp := ts, tone := tn }) := by
  constructor
  · unfold generate
    simp [parse_feature_collection, collection_to_json, jsonField, jsonStr,
      parse_features_map, List.lookup]
  · intro lon lat s ts tn
    rfl

/-- C4 counterexample: the regex of `_process_posts` does NOT propose
"Springfield" for the example text — its greedy `[\w\s,]+` captures
"Springfield yesterday" — and a post whose only location phrase uses the
"from X" pattern yields no candidate at all (the live code has no "from"
branch; the method that has one is never called). -/
theorem claim_C4_counterexample :
    "Springfield" ∉ extract_locations springfieldPost ∧
    "Paris" ∉ extract_locations fromParisPost := by
  refine ⟨by decide, by decide⟩

lemma geocode_loop_all_timeout (geo : String → GeoOutcome) (p : Post) :
    ∀ names : List String, (∀ l ∈ names, geo l = GeoOutcome.timedOut) →
      geocode_loop geo p names = none := by
  intro names
  induction names with
  | nil => intro _; rfl
  | cons n ns ih =>
    intro h
    have hn := h n (List.mem_cons_self n ns)
    have ht := ih (fun x hx => h x (List.mem_cons_of_mem n hx))
    simp [geocode_loop, hn, ht]

lemma geocode_loop_first_success (geo : String → GeoOutcome) (p : Post)
    (name : String) (names2 : List String) (lat lon : Float) (addr : String)
    (ctry : Option String) :
    ∀ names1 : List String,
      (∀ l ∈ names1, (geo l).isSuccess = false) →
      geo name = GeoOutcome.success lat lon addr ctry →
      geocode_loop geo p (names1 ++ name :: names2) =
        some { id := p.id, text := p.text, created_at := p.created_at,
               location := name, latitude := lat, longitude := lon,
               location_type := "geocoded", country := ctry,
               url := "https://twitter.com/i/web/status/" ++ p.id,
               address := addr } := by
  intro names1
  induction names1 with
  | nil =>
    intro _ h0
    simp [geocode_loop, h0]
  | cons n ns ih =>
    intro h h0
    have hn := h n (List.mem_cons_self n ns)
    have ht := ih (fun x hx => h x (List.mem_cons_of_mem n hx)) h0
    cases hg : geo n with
    | success la lo a c => rw [hg] at hn; simp [GeoOutcome.isSuccess] at hn
    | timedOut => simp [geocode_loop, hg, ht]
    | geoError c => simp [geocode_loop, hg, ht]
    | notFound => simp [geocode_loop, hg, ht]

/-- C4 as amended: for the example text the location-extraction step proposes
the single candidate "Springfield yesterday" (the greedy capture runs to the
end of the text); candidates — from the "in X" / "at X" / "near X" patterns
only — are geocoded in order until the first one resolves; and a post all of
whose candidates time out is absent from the returned result set. -/
theorem claim_C4 (geo : String → GeoOutcome) (p : Post) :
    extract_locations springfieldPost = ["Springfield yesterday"] ∧
    ((∀ l ∈ extract_locations p, geo l = GeoOutcome.timedOut) →
      process_post geo p = none ∧ process_posts geo [p] = []) ∧
    (∀ (names1 : List String) (name : String) (names2 : List String)
        (lat lon : Float) (addr : String) (ctry : Option String),
      (∀ l ∈ names1, (geo l).isSuccess = false) →
      geo name = GeoOutcome.success lat lon addr ctry →
      geocode_loop geo p (names1 ++ name :: names2) =
        some { id := p.id, text := p.text, created_at := p.created_at,
               location := name, latitude := lat, longitude := lon,
               location_type := "geocoded", country := ctry,
               url := "https://twitter.com/i/web/status/" ++ p.id,
               address := addr }) := by
  refine ⟨by decide, ?_, ?_⟩
  · intro h
    have h1 : process_post geo p = none :=
      geocode_loop_all_timeout geo p (extract_locations p) h
    refine ⟨h1, ?_⟩
    simp [process_posts, h1]
  · intro names1 name names2 lat lon addr ctry h h0
    exact geocode_loop_first_success geo p name names2 lat lon addr ctry
      names1 h h0

/-- Witness for C4: the Springfield post is dropped when geocoding always
times out, and a first successful candidate wins after a timed-out one. -/
theorem claim_C4_witness :
    process_post (fun _ => GeoOutcome.timedOut) springfieldPost = none ∧
    process_posts (fun _ => GeoOutcome.timedOut) [springfieldPost] = [] ∧
    geocode_loop geoW springfieldPost ["a", "b"] =
      some { id := "1", text := "A fire broke out in Springfield yesterday",
             created_at := none, location := "b", latitude := 1.5,
             longitude := 2.5, location_type := "geocoded", country := none,
             url := "https://twitter.com/i/web/status/1",
             address := "addr" } := by
  obtain ⟨h1, h2⟩ :=
    ((claim_C4 (fun _ => GeoOutcome.timedOut) springfieldPost).2.1
      (fun l _ => rfl))
  refine ⟨h1, h2, ?_⟩
  have h3 := (claim_C4 geoW springfieldPost).2.2 ["a"] "b" [] 1.5 2.5 "addr"
    none (by decide) rfl
  simpa using h3

end GdeltGeo
